import Mathlib

/-!
# Verification of the tengen normalization pipeline

Shallow embedding of the tengen repository (solar-irradiance spectrum
dataset normalization): the unit-repair routine shared by the notebook
adapters, the per-source adapter `format`/`download` functions, and a
builder model, together with theorems settling the specification claims.

Strings are embedded as `List Char`; numeric table magnitudes as `ℚ`
(their exact values are irrelevant to the claims, only their flow);
missing-value cells as an explicit `Val.nan` constructor; filesystem
effects as explicit state passing over a small `FS` record.
-/

namespace Tengen

/-! ## Character classes of the two regular expressions

The source scans with `re.finditer("[-+][0-9]", s)` and
`re.finditer("[a-z ][0-9]", s)`. -/

/-- Character class `[-+]` of the first regular expression:
code points 45 (`-`) and 43 (`+`). -/
def isSign (c : Char) : Bool :=
  c.toNat = 45 || c.toNat = 43

/-- Character class `[0-9]`: code points 48 (`0`) through 57 (`9`). -/
def isDigitC (c : Char) : Bool :=
  48 ≤ c.toNat && c.toNat ≤ 57

/-- Character class `[a-z ]` of the second regular expression:
code points 97 (`a`) through 122 (`z`), and 32 (space). -/
def isLowerOrSpace (c : Char) : Bool :=
  (97 ≤ c.toNat && c.toNat ≤ 122) || c.toNat = 32

/-! ## `re.finditer` for a two-character pattern

`re.finditer(pat, s)` with a pattern matching exactly two characters
returns the start indices of the leftmost non-overlapping matches: after
a match at `i`, scanning resumes at `i + 2`. -/

/-- Start indices of the leftmost non-overlapping matches of the
two-character pattern "a character satisfying `p1` followed by one
satisfying `p2`", as `re.finditer` produces them. -/
def finditer2 (p1 p2 : Char → Bool) : List Char → List Nat
  | c1 :: c2 :: rest =>
    if p1 c1 && p2 c2 then
      0 :: (finditer2 p1 p2 rest).map (· + 2)
    else
      (finditer2 p1 p2 (c2 :: rest)).map (· + 1)
  | _ => []

/-- Python `s = s[:i] + "^" + s[i:]`: insert a character at index `i`. -/
def insertAt (s : List Char) (i : Nat) (c : Char) : List Char :=
  s.take i ++ c :: s.drop i

/-- The source's insertion loop
`for count, i in enumerate(where): s = s[: i + count + off] + "^" + s[i + count + off :]`
with `off = 0` for the first loop (caret before the sign) and
`off = 1` for the second loop (caret between the letter/space and the
digit). Each earlier insertion shifts later indices by one, which the
running `count` compensates. -/
def caretInsertLoop (off : Nat) : List Char → List Nat → Nat → List Char
  | s, [], _ => s
  | s, i :: rest, count =>
    caretInsertLoop off (insertAt s (i + count + off) '^') rest (count + 1)

/-- `format_missing_carats_units` from the notebooks (Coddington FSE and
SOLID adapters): two passes over the string, the first inserting `^`
before every `[-+][0-9]` match, the second inserting `^` after the first
character of every `[a-z ][0-9]` match. -/
def format_missing_carats_units (s : List Char) : List Char :=
  let s1 := caretInsertLoop 0 s (finditer2 isSign isDigitC s) 0
  caretInsertLoop 1 s1 (finditer2 isLowerOrSpace isDigitC s1) 0

/-- String wrapper for `format_missing_carats_units`. -/
def repairUnits (s : String) : String :=
  String.mk (format_missing_carats_units s.data)

/-! ## Recursive characterization of the two regex-and-insert passes

`passRec p1 p2 before` walks the string once and inserts `^` at every
leftmost non-overlapping match of the two-character pattern, before the
first matched character (`before = true`, the sign pass) or between the
two matched characters (`before = false`, the letter/space pass).
It is proved equal to the source's `finditer`-plus-insertion-loop
formulation below. -/

/-- Single-pass recursive form of one regex-scan-and-insert pass. -/
def passRec (p1 p2 : Char → Bool) (before : Bool) : List Char → List Char
  | c1 :: c2 :: rest =>
    if p1 c1 && p2 c2 then
      if before then '^' :: c1 :: c2 :: passRec p1 p2 before rest
      else c1 :: '^' :: c2 :: passRec p1 p2 before rest
    else
      c1 :: passRec p1 p2 before (c2 :: rest)
  | s => s

/-- Single left-to-right scan combining both passes: a caret goes before
every sign-digit pair and between every lowercase/space-digit pair. -/
def repairOnePass : List Char → List Char
  | c1 :: c2 :: rest =>
    if isSign c1 && isDigitC c2 then
      '^' :: c1 :: c2 :: repairOnePass rest
    else if isLowerOrSpace c1 && isDigitC c2 then
      c1 :: '^' :: c2 :: repairOnePass rest
    else
      c1 :: repairOnePass (c2 :: rest)
  | s => s

/-- Whether some adjacent pair of characters matches the two-character
pattern `p1`-then-`p2`. -/
def hasMatch (p1 p2 : Char → Bool) : List Char → Bool
  | c1 :: c2 :: rest => (p1 c1 && p2 c2) || hasMatch p1 p2 (c2 :: rest)
  | _ => false

/-! ## Dates

Python `datetime.date` values and their `strftime("%Y-%m-%d")`
rendering; day numbers for date arithmetic. -/

/-- A civil calendar date. -/
structure Date where
  year : Nat
  month : Nat
  day : Nat
deriving DecidableEq, Repr

/-- Decimal rendering of `n`, zero-padded on the left to `width`
digits. -/
def padNum (width n : Nat) : List Char :=
  let ds := Nat.toDigits 10 n
  List.replicate (width - ds.length) '0' ++ ds

/-- `date.strftime("%Y-%m-%d")` (also the default `str()` rendering of
a Python date). -/
def strftimeYmd (d : Date) : String :=
  String.mk (padNum 4 d.year ++ '-' :: padNum 2 d.month ++ '-' :: padNum 2 d.day)

/-- Day number of a civil date (days since 1970-01-01, Howard Hinnant's
`days_from_civil` algorithm); used to embed Python date arithmetic. -/
def daysFromCivil (y : Int) (m d : Nat) : Int :=
  let y' : Int := if m ≤ 2 then y - 1 else y
  let era : Int := (if 0 ≤ y' then y' else y' - 399) / 400
  let yoe : Int := y' - era * 400
  let doy : Int := (153 * ((m : Int) + (if 2 < m then -3 else 9)) + 2) / 5 + (d : Int) - 1
  let doe : Int := yoe * 365 + yoe / 4 - yoe / 100 + doy
  era * 146097 + doe - 719468

/-- Civil date of a day number (inverse of `daysFromCivil`). -/
def civilFromDays (z0 : Int) : Date :=
  let z : Int := z0 + 719468
  let era : Int := (if 0 ≤ z then z else z - 146096) / 146097
  let doe : Int := z - era * 146097
  let yoe : Int := (doe - doe / 1460 + doe / 36524 - doe / 146096) / 365
  let y : Int := yoe + era * 400
  let doy : Int := doe - (365 * yoe + yoe / 4 - yoe / 100)
  let mp : Int := (5 * doy + 2) / 153
  let d : Int := doy - (153 * mp + 2) / 5 + 1
  let m : Int := mp + (if mp < 10 then 3 else -9)
  { year := (if m ≤ 2 then y + 1 else y).toNat, month := m.toNat, day := d.toNat }

/-- `pandas.date_range(start, end, freq="D")` on day numbers: all days
from `s` to `e` inclusive (empty when `e < s`). -/
def dateRangeDays (s e : Int) : List Int :=
  (List.range (e - s + 1).toNat).map fun (k : Nat) => s + (k : Int)

/-! ## Values and table cells -/

/-- Numeric value in a parsed table: a rational magnitude, or the IEEE
not-a-number that `numpy.genfromtxt` substitutes for missing cells. -/
inductive Val where
  | num (q : ℚ)
  | nan
deriving DecidableEq, Repr

/-- Elementwise `q <= v` as numpy evaluates it: every comparison with
NaN is false. -/
def vge (v : Val) (q : ℚ) : Bool :=
  match v with
  | .num x => decide (q ≤ x)
  | .nan => false

/-- Raw token of a whitespace-separated table read by
`numpy.genfromtxt(missing_values="---", filling_values=nan)`: either a
numeric token or the missing-value sentinel `---`. -/
inductive Cell where
  | number (q : ℚ)
  | missing
deriving DecidableEq, Repr

/-- `genfromtxt` cell conversion: numeric tokens parse to their value,
the sentinel fills with NaN. -/
def cellVal : Cell → Val
  | .number q => .num q
  | .missing => .nan

/-! ## `numpy.loadtxt` and column extraction -/

/-- One line of a raw text table: a comment line (stripped by the
`comments` argument of `numpy.loadtxt`) or a whitespace-separated data
record. -/
inductive RawLine where
  | comment
  | record (cells : List ℚ)
deriving DecidableEq

/-- `numpy.loadtxt(fname, comments=..., skiprows=k)`: the first `k`
lines are skipped, comment lines among the rest are dropped, the data
records form the returned array. -/
def loadtxt (skiprows : Nat) (lines : List RawLine) : List (List ℚ) :=
  (lines.drop skiprows).filterMap fun
    | .comment => none
    | .record cells => some cells

/-- `data[:, j]` on a rectangular two-dimensional array (rows all have
more than `j` entries; the default is never consulted then). -/
def column (j : Nat) (data : List (List ℚ)) : List ℚ :=
  data.map fun row => row.getD j 0

/-- `numpy.ndarray.transpose()` on a rectangular two-dimensional array
whose rows all have length `n`. -/
def transposeMat (n : Nat) (d : α) (m : List (List α)) : List (List α) :=
  (List.range n).map fun j => m.map fun row => row.getD j d

/-! ## Quantities and the dataset builder

Modelled from the spec: the `tengen` package itself (its `to_dataset`
builder, §4.2, and `unit_registry`) is not under `src/`; only the
notebook adapters are. Per §4.2 the builder records the handed-over
quantities and metadata, synthesizes a singleton time axis when `t` is
omitted, and orients a two-dimensional `ssi` into `(t, w)` order.
Conversion into the canonical unit system is outside the modelled
fragment: the unit string attached to each quantity is recorded as
given. -/

/-- `pint` quantity: a magnitude tagged with a unit expression. -/
structure Quantity (α : Type) where
  magnitude : α
  units : String
deriving DecidableEq, Repr

/-- Modelled from the spec (§3, §4.2): the canonical dataset, with
`ssi` stored in `(t, w)` order. -/
structure Dataset (α : Type) where
  ssi : List (List α)
  w : List α
  t : List Int
  ssi_units : String
  w_units : String
  data_url : String
  attrs : List (String × String)
deriving DecidableEq, Repr

/-- Modelled from the spec (§4.2): `tengen.to_dataset` called with a
one-dimensional `ssi` and no time axis: a singleton time axis is
synthesized (day 0 of the epoch) and `ssi` is broadcast against the
wavelength axis only. -/
def to_dataset1 (ssi : Quantity (List α)) (w : Quantity (List α))
    (data_url : String) (attrs : List (String × String)) : Dataset α :=
  { ssi := [ssi.magnitude], w := w.magnitude, t := [0],
    ssi_units := ssi.units, w_units := w.units,
    data_url := data_url, attrs := attrs }

/-- Modelled from the spec (§4.2): `tengen.to_dataset` called with a
two-dimensional `ssi` and a time axis; the builder orients `ssi` into
`(t, w)` order, transposing when it arrives in `(w, t)` order. -/
def to_dataset2 [Inhabited α] (ssi : Quantity (List (List α)))
    (w : Quantity (List α)) (t : List Int) (data_url : String)
    (attrs : List (String × String)) : Dataset α :=
  { ssi := if ssi.magnitude.length = t.length then ssi.magnitude
           else transposeMat t.length default ssi.magnitude,
    w := w.magnitude, t := t,
    ssi_units := ssi.units, w_units := w.units,
    data_url := data_url, attrs := attrs }

/-! ## Filesystem and transport model

`download` functions are embedded as explicit state transformations of
a small filesystem record; `requests.get` is the external transport
collaborator, so its response is a parameter. -/

/-- An HTTP(S)/FTP response: status code and body bytes. None of the
adapters inspect the status. -/
structure Response where
  status : Nat
  content : List Nat
deriving DecidableEq, Repr

/-- Filesystem state: existing directories and files with contents. -/
structure FS where
  dirs : List String
  files : List (String × List Nat)
deriving DecidableEq, Repr

/-- `Path(p).mkdir(parents=True, exist_ok=True)`. -/
def mkdirP (fs : FS) (p : String) : FS :=
  { fs with dirs := if p ∈ fs.dirs then fs.dirs else p :: fs.dirs }

/-- `open(p, "wb").write(b)`: create or overwrite the file at `p`. -/
def writeFile (fs : FS) (p : String) (b : List Nat) : FS :=
  { fs with files := (p, b) :: fs.files.filter fun e => e.1 != p }

/-! ## String helpers for the adapters -/

/-- Whether `pat` is an initial segment of `s`. -/
def startsWithB : List Char → List Char → Bool
  | [], _ => true
  | _ :: _, [] => false
  | a :: as, b :: bs => a = b && startsWithB as bs

/-- Python `pat in s`: substring containment. -/
def containsSub (pat : List Char) : List Char → Bool
  | [] => startsWithB pat []
  | c :: rest => startsWithB pat (c :: rest) || containsSub pat rest

/-- Python `label.replace(" ", "_")`. -/
def underscoreSpaces : List Char → List Char :=
  List.map fun c => if c = ' ' then '_' else c

/-- Whether a ten-character list is of the shape `YYYY-MM-DD`. -/
def isDate10 : List Char → Bool
  | [y1, y2, y3, y4, h1, m1, m2, h2, d1, d2] =>
    isDigitC y1 && isDigitC y2 && isDigitC y3 && isDigitC y4 &&
    h1 = '-' && isDigitC m1 && isDigitC m2 && h2 = '-' &&
    isDigitC d1 && isDigitC d2
  | _ => false

/-- Whether a string is of the shape `YYYY-MM-DD to YYYY-MM-DD`. -/
def isPeriodFormatB (s : String) : Bool :=
  let cs := s.data
  (cs.length == 24) && isDate10 (cs.take 10) &&
    ((cs.drop 10).take 4 == " to ".data) && isDate10 (cs.drop 14)

/-! ## WHI 2008 adapter (`src/unnamed/part_002`) -/

namespace Whi

def IDENTIFIER : String := "whi_2008"

def RAW_DATA_URL : String :=
  "https://lasp.colorado.edu/lisird/resources/whi_ref_spectra/data/ref_solar_irradiance_whi-2008_ver2.dat"

def TITLE : String :=
  "Whole Heliosphere Interval (WHI) solar irradiance reference spectrum (2008)"

def INSTITUTION : String :=
  "Laboratory for Atmospheric and Space Physics, University of Colorado, Boulder, Colorado, USA"

def SOURCE : String :=
  "Combination of satellite observations from the SEE and SORCE instruments onboard the TIMED satellite and a prototype EVE instrument onboard a sounding rocket launched on 2008-04-14."

def REFERENCES : String := "https://doi.org/10.1029/2008GL036373"

def FILE : String := "ref_solar_irradiance_whi-2008_ver2.dat"

/-- The three named observation sub-periods (an insertion-ordered
Python dict in the source; `list(keys).index(identifier)` is the
position in this list since the keys are distinct). -/
def WHI_2008_TIME_PERIOD : List (String × Date × Date) :=
  [("sunspot active", ⟨2008, 3, 25⟩, ⟨2008, 3, 29⟩),
   ("faculae active", ⟨2008, 3, 29⟩, ⟨2008, 4, 4⟩),
   ("quiet sun", ⟨2008, 4, 10⟩, ⟨2008, 4, 16⟩)]

/-- `download_raw_data(url, path)` with an explicit destination path:
`requests.get(url)`, `path.mkdir(parents=True, exist_ok=True)`, then
the body is written to `path / FILE`. The response is the transport
collaborator's return value. The Thuillier, Meftah and SOLID downloads
have the same shape. -/
def download_raw_data (resp : Response) (path : String) (fs : FS) : FS :=
  let fs1 := mkdirP fs path
  writeFile fs1 (path ++ "/" ++ FILE) resp.content

/-- `format_raw_data(raw_data, path=None)`: `np.loadtxt(comments=";",
skiprows=142)`, wavelength from column 0, then one dataset per entry of
`WHI_2008_TIME_PERIOD`, the irradiance column index being the entry's
position in the period table. -/
def format_raw_data (lines : List RawLine) : List (Dataset ℚ) :=
  let data := loadtxt 142 lines
  let wavelength := column 0 data
  WHI_2008_TIME_PERIOD.enum.map fun ip =>
    to_dataset1
      ⟨column ip.1 data, "W / m ** 2 / nm"⟩
      ⟨wavelength, "nm"⟩
      RAW_DATA_URL
      [("title", TITLE ++ " (" ++ ip.2.1 ++ ")"),
       ("institution", INSTITUTION),
       ("source", SOURCE),
       ("references", REFERENCES),
       ("observation_period",
        strftimeYmd ip.2.2.1 ++ " to " ++ strftimeYmd ip.2.2.2)]

/-- Output file name for one sub-period when a destination path is
given: `f"{IDENTIFIER}-{resolution}.nc"` with
`resolution = identifier.replace(" ", "_")`. -/
def output_filename (identifier : String) : String :=
  IDENTIFIER ++ "-" ++ String.mk (underscoreSpaces identifier.data) ++ ".nc"

/-- The output file names produced by the `path is not None` branch,
one per sub-period, in loop order. -/
def output_filenames : List String :=
  WHI_2008_TIME_PERIOD.map fun p => output_filename p.1

/-- `format_raw_data` as an explicit function of the three table
columns it reads (proof helper: the loop over the period table,
unrolled). -/
def format_raw_data_cols (c0 c1 c2 : List ℚ) : List (Dataset ℚ) :=
  [to_dataset1 ⟨c0, "W / m ** 2 / nm"⟩ ⟨c0, "nm"⟩ RAW_DATA_URL
     [("title", TITLE ++ " (" ++ "sunspot active" ++ ")"),
      ("institution", INSTITUTION),
      ("source", SOURCE),
      ("references", REFERENCES),
      ("observation_period",
       strftimeYmd ⟨2008, 3, 25⟩ ++ " to " ++ strftimeYmd ⟨2008, 3, 29⟩)],
   to_dataset1 ⟨c1, "W / m ** 2 / nm"⟩ ⟨c0, "nm"⟩ RAW_DATA_URL
     [("title", TITLE ++ " (" ++ "faculae active" ++ ")"),
      ("institution", INSTITUTION),
      ("source", SOURCE),
      ("references", REFERENCES),
      ("observation_period",
       strftimeYmd ⟨2008, 3, 29⟩ ++ " to " ++ strftimeYmd ⟨2008, 4, 4⟩)],
   to_dataset1 ⟨c2, "W / m ** 2 / nm"⟩ ⟨c0, "nm"⟩ RAW_DATA_URL
     [("title", TITLE ++ " (" ++ "quiet sun" ++ ")"),
      ("institution", INSTITUTION),
      ("source", SOURCE),
      ("references", REFERENCES),
      ("observation_period",
       strftimeYmd ⟨2008, 4, 10⟩ ++ " to " ++ strftimeYmd ⟨2008, 4, 16⟩)]]

end Whi

/-! ## Coddington 2022 FSE adapter (`src/unnamed/part_003`) -/

namespace Fse

def IDENTIFIER : String := "coddington_2022-fse"

def FILENAMES : List String := ["binned_fs_", "fs_"]

def FILENAME_SUFFIX : String :=
  "hybrid_reference_spectrum_c2022-11-30_with_unc.nc"

/-- `download(url, path)` with an explicit destination path: unlike the
other adapters there is no `mkdir`; if the path is not an existing
directory a `ValueError` is raised, otherwise each of the two files is
fetched and written to `path`. -/
def download (resp : String → Response) (path : String) (fs : FS) :
    Except String FS :=
  if path ∈ fs.dirs then
    Except.ok (FILENAMES.foldl
      (fun acc fn =>
        let file := fn ++ FILENAME_SUFFIX
        writeFile acc (path ++ "/" ++ file) (resp file).content)
      fs)
  else
    Except.error ("Path " ++ path ++ " must be a directory.")

/-- Output file name inside `format` when a destination path is given:
`f"{IDENTIFIER}_binned.nc" if "binned" in filename else f"{IDENTIFIER}.nc"`. -/
def output_filename (filename : String) : String :=
  if containsSub "binned".data filename.data then IDENTIFIER ++ "_binned.nc"
  else IDENTIFIER ++ ".nc"

/-- The two output file names, in loop order over `FILENAMES`. -/
def output_filenames : List String :=
  FILENAMES.map output_filename

end Fse

/-! ## Meftah 2018 adapter (`src/notebooks/meftah_2018.ipynb`) -/

namespace Meftah

def IDENTIFIER : String := "meftah_2018"

def DATA_URL : String :=
  "http://cdsarc.u-strasbg.fr/ftp/J/A+A/611/A1/spectrum.dat.gz"

def TITLE : String := "Meftah et al (2018) solar irradiance reference spectrum"

def INSTITUTION : String :=
  "CNRS, LATMOS, Universite Paris Saclay, Universite Pierre et Marie Curie, UVSQ, INSU, IPSL, 75005 Paris, France"

def SOURCE : String :=
  "Observations from the SOLSPEC instrument of the SOLAR payload onboard the international space station"

def REFERENCES : String := "https://doi.org/10.1051/0004-6361/201731316"

/-- `format(data, path=None)`: `np.genfromtxt(missing_values="---",
filling_values=np.nan)`, wavelength from column 0 and irradiance from
column 1, then the mask `wavelength >= 165.0` is applied to both
columns (a NaN wavelength compares false) and the masked quantities are
handed to the builder. -/
def format (table : List (List Cell)) : Dataset Val :=
  let data := table.map fun row => row.map cellVal
  let wavelength := data.map fun row => row.getD 0 (Val.num 0)
  let spectral_irradiance := data.map fun row => row.getD 1 (Val.num 0)
  let kept := (wavelength.zip spectral_irradiance).filter fun p => vge p.1 165
  let w := kept.map Prod.fst
  let ssi := kept.map Prod.snd
  to_dataset1 ⟨ssi, "W / m ** 2 / nm"⟩ ⟨w, "nm"⟩ DATA_URL
    [("title", TITLE),
     ("institution", INSTITUTION),
     ("source", SOURCE),
     ("references", REFERENCES),
     ("observation_period",
      strftimeYmd ⟨2008, 4, 5⟩ ++ " to " ++ strftimeYmd ⟨2016, 12, 31⟩)]

end Meftah

/-! ## SOLID 2017 adapter (second document of
`src/notebooks/whi_2008.ipynb`) -/

namespace Solid

def DATA_URL : String :=
  "ftp://ftp.pmodwrc.ch/pub/projects/SOLID/database/composite_published/SOLID_1978_published/"

def TITLE : String := "SOLID solar irradiance composite spectrum (2017)"

def INSTITUTION : String :=
  "Physikalisch-Meteorologisches Observatorium and World Radiation Center, Davos Dorf, Switzerland"

def SOURCE : String := "Combined original SSI observations from 20 different instruments"

def REFERENCES : String := "https://doi.org/10.1002/2016JA023492"

/-- One per-wavelength-range netCDF file: its wavelength coordinate,
the shared time coordinate, its `data` variable in `(wavelength, time)`
order, and the unit strings carried by its attributes. -/
structure NcFile where
  wavelength : List ℚ
  time : List ℚ
  data : List (List ℚ)
  units : String
  wavelength_units : String
deriving DecidableEq, Repr

/-- `xr.merge` of the per-range files: wavelength axes and data blocks
concatenate along the wavelength dimension; the shared time coordinate
and the variable attributes come from the first file. -/
def merge (files : List NcFile) : NcFile :=
  { wavelength := (files.map fun f => f.wavelength).flatten,
    time := match files with | [] => [] | f :: _ => f.time,
    data := (files.map fun f => f.data).flatten,
    units := match files with | [] => "" | f :: _ => f.units,
    wavelength_units := match files with | [] => "" | f :: _ => f.wavelength_units }

/-- The hard-coded end date `date(2014, 12, 30)` as a day number. -/
def endDay : Int := daysFromCivil 2014 12 30

/-- `format(data, path=None)`: the files are merged, then
`end = date(2014, 12, 30)`, `start = end - timedelta(time.size - 1)`,
the merged `data` is transposed, its unit string repaired with
`format_missing_carats_units`, `t = pd.date_range(start, end, freq="D")`,
and everything is handed to the builder. -/
def format (files : List NcFile) : Dataset ℚ :=
  let merged := merge files
  let start : Int := endDay - ((merged.time.length : Int) - 1)
  let ssi_magnitude := transposeMat merged.time.length 0 merged.data
  let ssi_units := repairUnits merged.units
  let w := merged.wavelength
  let t := dateRangeDays start endDay
  to_dataset2 ⟨ssi_magnitude, ssi_units⟩ ⟨w, merged.wavelength_units⟩ t DATA_URL
    [("title", TITLE),
     ("institution", INSTITUTION),
     ("source", SOURCE),
     ("references", REFERENCES),
     ("observation_period",
      strftimeYmd (civilFromDays start) ++ " - " ++
        strftimeYmd (civilFromDays endDay))]

end Solid

/-! ### Disjointness of the character classes -/

theorem digit_not_sign {c : Char} (h : isDigitC c = true) : isSign c = false := by
  simp [isDigitC] at h
  simp [isSign]
  omega

theorem digit_not_lower {c : Char} (h : isDigitC c = true) :
    isLowerOrSpace c = false := by
  simp [isDigitC] at h
  simp [isLowerOrSpace]
  omega

theorem sign_not_lower {c : Char} (h : isSign c = true) :
    isLowerOrSpace c = false := by
  simp [isSign] at h
  simp [isLowerOrSpace]
  omega

theorem caret_not_sign : isSign '^' = false := by decide

theorem caret_not_digit : isDigitC '^' = false := by decide

theorem caret_not_lower : isLowerOrSpace '^' = false := by decide

/-! ### The insertion loop equals the recursive pass -/

theorem insertAt_append (pre suf : List Char) (j : Nat) (c : Char) :
    insertAt (pre ++ suf) (pre.length + j) c = pre ++ insertAt suf j c := by
  simp [insertAt, List.take_append, List.drop_append]

theorem caretLoop_append (off : Nat) (pre : List Char) :
    ∀ (ps : List Nat) (suf : List Char) (count : Nat),
      caretInsertLoop off (pre ++ suf) (ps.map (· + pre.length)) count =
        pre ++ caretInsertLoop off suf ps count
  | [], _, _ => rfl
  | i :: rest, suf, count => by
    simp only [List.map_cons, caretInsertLoop]
    have hidx : i + pre.length + count + off = pre.length + (i + count + off) := by
      omega
    rw [hidx, insertAt_append]
    exact caretLoop_append off pre rest (insertAt suf (i + count + off) '^') count.succ

theorem caretLoop_shift (off : Nat) :
    ∀ (ps : List Nat) (s : List Char) (count : Nat),
      caretInsertLoop off s (ps.map (· + 1)) count =
        caretInsertLoop off s ps (count + 1)
  | [], _, _ => rfl
  | i :: rest, s, count => by
    simp only [List.map_cons, caretInsertLoop]
    have hidx : i + 1 + count + off = i + (count + 1) + off := by omega
    rw [hidx]
    exact caretLoop_shift off rest _ (count + 1)

theorem loop_eq_passRec (p1 p2 : Char → Bool) (before : Bool) :
    ∀ s : List Char,
      caretInsertLoop (if before then 0 else 1) s (finditer2 p1 p2 s) 0 =
        passRec p1 p2 before s
  | [] => rfl
  | [c] => rfl
  | c1 :: c2 :: rest => by
    by_cases h : (p1 c1 && p2 c2) = true
    · have ih := loop_eq_passRec p1 p2 before rest
      rw [finditer2, passRec, if_pos h, if_pos h]
      rw [caretInsertLoop]
      have hshift : ∀ (s' : List Char) (ps : List Nat),
          caretInsertLoop (if before then 0 else 1) s' ps 1 =
            caretInsertLoop (if before then 0 else 1) s' (ps.map (· + 1)) 0 :=
        fun s' ps => (caretLoop_shift _ ps s' 0).symm
      rw [hshift]
      cases before
      · -- caret between the two matched characters
        have hins : insertAt (c1 :: c2 :: rest) (0 + 0 + if false then 0 else 1) '^' =
            [c1, '^', c2] ++ rest := by
          simp [insertAt]
        rw [hins]
        have hmap : ((finditer2 p1 p2 rest).map (· + 2)).map (· + 1) =
            (finditer2 p1 p2 rest).map (· + ([c1, '^', c2] : List Char).length) := by
          simp [List.map_map]
        rw [hmap, caretLoop_append, ih]
        rfl
      · -- caret before the first matched character
        have hins : insertAt (c1 :: c2 :: rest) (0 + 0 + if true then 0 else 1) '^' =
            ['^', c1, c2] ++ rest := by
          simp [insertAt]
        rw [hins]
        have hmap : ((finditer2 p1 p2 rest).map (· + 2)).map (· + 1) =
            (finditer2 p1 p2 rest).map (· + (['^', c1, c2] : List Char).length) := by
          simp [List.map_map]
        rw [hmap, caretLoop_append, ih]
        rfl
    · have ih := loop_eq_passRec p1 p2 before (c2 :: rest)
      rw [finditer2, passRec, if_neg h, if_neg h]
      have hmap : (finditer2 p1 p2 (c2 :: rest)).map (· + 1) =
          (finditer2 p1 p2 (c2 :: rest)).map (· + ([c1] : List Char).length) := rfl
      rw [hmap]
      show caretInsertLoop _ ([c1] ++ (c2 :: rest)) _ 0 = _
      rw [caretLoop_append, ih]
      rfl

theorem loop_eq_pass1 (s : List Char) :
    caretInsertLoop 0 s (finditer2 isSign isDigitC s) 0 =
      passRec isSign isDigitC true s := by
  simpa using loop_eq_passRec isSign isDigitC true s

theorem loop_eq_pass2 (s : List Char) :
    caretInsertLoop 1 s (finditer2 isLowerOrSpace isDigitC s) 0 =
      passRec isLowerOrSpace isDigitC false s := by
  simpa using loop_eq_passRec isLowerOrSpace isDigitC false s

/-- The source function equals the sign pass followed by the
letter/space pass, in recursive form. -/
theorem fmcu_eq_passes (s : List Char) :
    format_missing_carats_units s =
      passRec isLowerOrSpace isDigitC false (passRec isSign isDigitC true s) := by
  simp only [format_missing_carats_units]
  rw [loop_eq_pass1, loop_eq_pass2]

/-! ### The two passes combine into the single scan `repairOnePass` -/

theorem passRec_cons_of_not_p1 {p1 p2 : Char → Bool} {c : Char} (b : Bool)
    (hc : p1 c = false) :
    ∀ xs : List Char, passRec p1 p2 b (c :: xs) = c :: passRec p1 p2 b xs
  | [] => rfl
  | y :: ys => by
    rw [passRec, if_neg]
    simp [hc]

theorem passRec_shape (p1 p2 : Char → Bool) (c : Char) :
    ∀ xs : List Char,
      (∃ zs, passRec p1 p2 true (c :: xs) = c :: zs) ∨
      (∃ zs, passRec p1 p2 true (c :: xs) = '^' :: c :: zs)
  | [] => Or.inl ⟨[], rfl⟩
  | y :: ys => by
    by_cases h : (p1 c && p2 y) = true
    · right
      exact ⟨y :: passRec p1 p2 true ys, by rw [passRec, if_pos h, if_pos rfl]⟩
    · left
      exact ⟨passRec p1 p2 true (y :: ys), by rw [passRec, if_neg h]⟩

/-- The sign pass followed by the letter/space pass equals the combined
single scan. -/
theorem passes_eq_onePass :
    ∀ s : List Char,
      passRec isLowerOrSpace isDigitC false (passRec isSign isDigitC true s) =
        repairOnePass s
  | [] => rfl
  | [c] => rfl
  | c1 :: c2 :: rest => by
    by_cases hs : (isSign c1 && isDigitC c2) = true
    · have hc1 : isSign c1 = true := (Bool.and_eq_true _ _ |>.mp hs).1
      have hc2 : isDigitC c2 = true := (Bool.and_eq_true _ _ |>.mp hs).2
      rw [passRec, if_pos hs, if_pos rfl, repairOnePass, if_pos hs]
      rw [passRec_cons_of_not_p1 false caret_not_lower]
      rw [passRec_cons_of_not_p1 false (sign_not_lower hc1)]
      rw [passRec_cons_of_not_p1 false (digit_not_lower hc2)]
      rw [passes_eq_onePass rest]
    · by_cases hl : (isLowerOrSpace c1 && isDigitC c2) = true
      · have hc2 : isDigitC c2 = true := (Bool.and_eq_true _ _ |>.mp hl).2
        rw [passRec, if_neg hs]
        rw [passRec_cons_of_not_p1 true (digit_not_sign hc2)]
        rw [passRec, if_pos hl, if_neg Bool.false_ne_true]
        rw [repairOnePass, if_neg hs, if_pos hl]
        rw [passes_eq_onePass rest]
      · rw [passRec, if_neg hs, repairOnePass, if_neg hs, if_neg hl]
        rcases passRec_shape isSign isDigitC c2 rest with ⟨zs, hzs⟩ | ⟨zs, hzs⟩
        · rw [hzs, passRec, if_neg hl, ← hzs]
          rw [passes_eq_onePass (c2 :: rest)]
        · rw [hzs]
          rw [passRec, if_neg (by simp [caret_not_digit])]
          rw [← hzs, passes_eq_onePass (c2 :: rest)]

/-- The source's unit-repair routine, as a single left-to-right scan:
a caret is inserted before every sign-digit pair and between every
lowercase-or-space/digit pair. -/
theorem fmcu_eq_onePass (s : List Char) :
    format_missing_carats_units s = repairOnePass s := by
  rw [fmcu_eq_passes, passes_eq_onePass]

/-! ### Idempotence analysis -/

theorem hasMatch_cons_of_not_p1 {p1 p2 : Char → Bool} {c : Char}
    (hc : p1 c = false) :
    ∀ xs : List Char, hasMatch p1 p2 (c :: xs) = hasMatch p1 p2 xs
  | [] => rfl
  | y :: ys => by
    rw [hasMatch]
    simp [hc]

theorem hasMatch_cons_pair {p1 p2 : Char → Bool} {x y : Char} {zs : List Char}
    (h : (p1 x && p2 y) = false) :
    hasMatch p1 p2 (x :: y :: zs) = hasMatch p1 p2 (y :: zs) := by
  rw [hasMatch, h, Bool.false_or]

theorem hasMatch_of_cons {p1 p2 : Char → Bool} {c : Char} :
    ∀ {xs : List Char}, hasMatch p1 p2 (c :: xs) = false →
      hasMatch p1 p2 xs = false
  | [], _ => rfl
  | y :: ys, h => by
    rw [hasMatch] at h
    exact (Bool.or_eq_false_iff.mp h).2

/-- A string without any match of either pattern is left unchanged by
the combined scan. -/
theorem repairOnePass_id :
    ∀ s : List Char, hasMatch isSign isDigitC s = false →
      hasMatch isLowerOrSpace isDigitC s = false → repairOnePass s = s
  | [], _, _ => rfl
  | [_], _, _ => rfl
  | c1 :: c2 :: rest, hs, hl => by
    rw [hasMatch, Bool.or_eq_false_iff] at hs hl
    rw [repairOnePass, if_neg (by simp [hs.1]), if_neg (by simp [hl.1])]
    rw [repairOnePass_id (c2 :: rest) hs.2 hl.2]

/-- The combined scan starts its output with the input's first
character, or with a caret followed by it. -/
theorem repairOnePass_shape (c : Char) :
    ∀ xs : List Char,
      (∃ zs, repairOnePass (c :: xs) = c :: zs) ∨
      (∃ zs, repairOnePass (c :: xs) = '^' :: c :: zs)
  | [] => Or.inl ⟨[], rfl⟩
  | y :: ys => by
    by_cases h : (isSign c && isDigitC y) = true
    · right
      exact ⟨y :: repairOnePass ys, by rw [repairOnePass, if_pos h]⟩
    · by_cases h2 : (isLowerOrSpace c && isDigitC y) = true
      · exact Or.inl ⟨'^' :: y :: repairOnePass ys, by
          rw [repairOnePass, if_neg h, if_pos h2]⟩
      · exact Or.inl ⟨repairOnePass (y :: ys), by
          rw [repairOnePass, if_neg h, if_neg h2]⟩

/-- The combined scan never leaves a lowercase-or-space/digit adjacency
in its output. -/
theorem repairOnePass_no_lower :
    ∀ s : List Char, hasMatch isLowerOrSpace isDigitC (repairOnePass s) = false
  | [] => rfl
  | [_] => rfl
  | c1 :: c2 :: rest => by
    by_cases hs : (isSign c1 && isDigitC c2) = true
    · have hc1 : isSign c1 = true := (Bool.and_eq_true _ _ |>.mp hs).1
      have hc2 : isDigitC c2 = true := (Bool.and_eq_true _ _ |>.mp hs).2
      rw [repairOnePass, if_pos hs]
      rw [hasMatch_cons_of_not_p1 caret_not_lower]
      rw [hasMatch_cons_of_not_p1 (sign_not_lower hc1)]
      rw [hasMatch_cons_of_not_p1 (digit_not_lower hc2)]
      exact repairOnePass_no_lower rest
    · by_cases hl : (isLowerOrSpace c1 && isDigitC c2) = true
      · have hc2 : isDigitC c2 = true := (Bool.and_eq_true _ _ |>.mp hl).2
        rw [repairOnePass, if_neg hs, if_pos hl]
        rw [hasMatch_cons_pair (by simp [caret_not_digit])]
        rw [hasMatch_cons_of_not_p1 caret_not_lower]
        rw [hasMatch_cons_of_not_p1 (digit_not_lower hc2)]
        exact repairOnePass_no_lower rest
      · rw [repairOnePass, if_neg hs, if_neg hl]
        rcases repairOnePass_shape c2 rest with ⟨zs, hzs⟩ | ⟨zs, hzs⟩
        · rw [hzs, hasMatch_cons_pair (by simpa using hl), ← hzs]
          exact repairOnePass_no_lower (c2 :: rest)
        · rw [hzs, hasMatch_cons_pair (by simp [caret_not_digit]), ← hzs]
          exact repairOnePass_no_lower (c2 :: rest)

/-- If the input has no sign-digit adjacency, neither does the output of
the combined scan. -/
theorem repairOnePass_no_sign :
    ∀ s : List Char, hasMatch isSign isDigitC s = false →
      hasMatch isSign isDigitC (repairOnePass s) = false
  | [], _ => rfl
  | [_], _ => rfl
  | c1 :: c2 :: rest, h => by
    rw [hasMatch, Bool.or_eq_false_iff] at h
    by_cases hl : (isLowerOrSpace c1 && isDigitC c2) = true
    · have hc2 : isDigitC c2 = true := (Bool.and_eq_true _ _ |>.mp hl).2
      rw [repairOnePass, if_neg (by simp [h.1]), if_pos hl]
      rw [hasMatch_cons_pair (by simp [caret_not_digit])]
      rw [hasMatch_cons_of_not_p1 caret_not_sign]
      rw [hasMatch_cons_of_not_p1 (digit_not_sign hc2)]
      exact repairOnePass_no_sign rest (hasMatch_of_cons h.2)
    · rw [repairOnePass, if_neg (by simp [h.1]), if_neg hl]
      rcases repairOnePass_shape c2 rest with ⟨zs, hzs⟩ | ⟨zs, hzs⟩
      · rw [hzs, hasMatch_cons_pair (by simp [h.1]), ← hzs]
        exact repairOnePass_no_sign (c2 :: rest) h.2
      · rw [hzs, hasMatch_cons_pair (by simp [caret_not_digit]), ← hzs]
        exact repairOnePass_no_sign (c2 :: rest) h.2

/-- On inputs with no sign character immediately followed by a digit,
the unit-repair routine is idempotent. -/
theorem fmcu_idem_of_no_sign_digit (s : List Char)
    (h : hasMatch isSign isDigitC s = false) :
    format_missing_carats_units (format_missing_carats_units s) =
      format_missing_carats_units s := by
  rw [fmcu_eq_onePass, fmcu_eq_onePass]
  exact repairOnePass_id (repairOnePass s) (repairOnePass_no_sign s h)
    (repairOnePass_no_lower s)

/-! ## Claim C1: idempotence of the unit-repair routine -/

/-- C1 counterexample: the unit-repair routine is not idempotent.
Repairing the claim's own example input `W m-2 nm-1` once yields the
well-formed `W m^-2 nm^-1`, but a second application inserts a second
caret before each sign, so repair composed with itself differs from a
single repair. -/
theorem claim1_not_idempotent :
    repairUnits (repairUnits "W m-2 nm-1") ≠ repairUnits "W m-2 nm-1" := by
  decide

/-- C1 (amended): the unit-repair routine is idempotent on every input
string that contains no sign character immediately followed by a digit;
on strings containing such a pair (which includes every already
well-formed string with a negative exponent, such as `W m^-2 nm^-1`) a
second application inserts an additional caret before each sign. -/
theorem claim1_idempotent_on_sign_free (s : List Char)
    (h : hasMatch isSign isDigitC s = false) :
    format_missing_carats_units (format_missing_carats_units s) =
      format_missing_carats_units s :=
  fmcu_idem_of_no_sign_digit s h

/-- Witness for C1: the hypothesis is satisfiable (`m2 sr` has no
sign-digit pair) and the theorem applies there. -/
theorem claim1_witness :
    hasMatch isSign isDigitC "m2 sr".data = false ∧
      format_missing_carats_units (format_missing_carats_units "m2 sr".data) =
        format_missing_carats_units "m2 sr".data :=
  ⟨by decide, claim1_idempotent_on_sign_free "m2 sr".data (by decide)⟩

/-! ## Claim C2: the three unit-repair examples -/

/-- C2 counterexample: the already-correct string `m^-1` is not left
unchanged by the repair routine. -/
theorem claim2_caret_not_preserved : repairUnits "m^-1" ≠ "m^-1" := by
  decide

/-- C2 (amended): the unit-repair routine maps `m-1` to `m^-1` and
`W m-2 nm-1` to `W m^-2 nm^-1` as claimed, but it maps the
already-correct `m^-1` to `m^^-1`, inserting a caret before the sign
although one is already present. -/
theorem claim2_repair_examples :
    repairUnits "m-1" = "m^-1" ∧
      repairUnits "W m-2 nm-1" = "W m^-2 nm^-1" ∧
      repairUnits "m^-1" = "m^^-1" := by
  refine ⟨by decide, by decide, by decide⟩

/-! ## Claim C3: the insertion rule of the unit-repair routine -/

/-- C3 counterexample: the routine inserts a caret before the exponent
of `m^-1` although a caret is already present there, and it inserts
nothing into `K2` although the digit run is preceded by an alphabetic
character (the second scan covers lowercase letters and spaces only). -/
theorem claim3_insertion_rule_violated :
    repairUnits "m^-1" = "m^^-1" ∧
      repairUnits "m^-1" ≠ "m^-1" ∧
      repairUnits "K2" = "K2" := by
  refine ⟨by decide, by decide, by decide⟩

/-- C3 (amended): for every input string, the routine inserts a caret
immediately before every sign character that is followed by a digit —
regardless of whether a caret is already present before the sign — and
between every lowercase letter or space and an immediately following
digit; uppercase letters do not trigger insertion. Formally, the
two-pass `finditer`-and-insert routine equals the single left-to-right
scan `repairOnePass` implementing exactly that rule. -/
theorem claim3_insertion_rule (s : List Char) :
    format_missing_carats_units s = repairOnePass s :=
  fmcu_eq_onePass s

/-! ## Claim C4: the WHI adapter yields three period-tagged datasets -/

/-- The WHI `format_raw_data` loop, unrolled: it is a function of the
first three table columns only. -/
theorem whi_format_eq (lines : List RawLine) :
    Whi.format_raw_data lines =
      Whi.format_raw_data_cols (column 0 (loadtxt 142 lines))
        (column 1 (loadtxt 142 lines)) (column 2 (loadtxt 142 lines)) := rfl

/-- C4: for every raw table (142 header lines skipped, comment lines
dropped), the WHI adapter's format function with no output path returns
exactly 3 datasets, each carrying a distinct `observation_period`
attribute of the shape `YYYY-MM-DD to YYYY-MM-DD`. -/
theorem claim4_whi_three_periods (lines : List RawLine) :
    (Whi.format_raw_data lines).length = 3 ∧
      (Whi.format_raw_data lines).map
          (fun d => (d.attrs.lookup "observation_period").getD "") =
        ["2008-03-25 to 2008-03-29", "2008-03-29 to 2008-04-04",
         "2008-04-10 to 2008-04-16"] ∧
      ((Whi.format_raw_data lines).map
          (fun d => (d.attrs.lookup "observation_period").getD "")).Pairwise
        (· ≠ ·) ∧
      ∀ p ∈ (Whi.format_raw_data lines).map
          (fun d => (d.attrs.lookup "observation_period").getD ""),
        isPeriodFormatB p = true := by
  have hmap : (Whi.format_raw_data lines).map
      (fun d => (d.attrs.lookup "observation_period").getD "") =
      ["2008-03-25 to 2008-03-29", "2008-03-29 to 2008-04-04",
       "2008-04-10 to 2008-04-16"] := rfl
  refine ⟨rfl, hmap, ?_, ?_⟩
  · rw [hmap]
    decide
  · rw [hmap]
    decide

/-- Witness for C4: the membership hypothesis of the last conjunct is
satisfiable and the theorem applies there. -/
theorem claim4_witness :
    "2008-03-25 to 2008-03-29" ∈ (Whi.format_raw_data []).map
        (fun d => (d.attrs.lookup "observation_period").getD "") ∧
      isPeriodFormatB "2008-03-25 to 2008-03-29" = true :=
  ⟨by decide,
   (claim4_whi_three_periods []).2.2.2 "2008-03-25 to 2008-03-29" (by decide)⟩

/-! ## Claim C10: the WHI irradiance column index is the period's
position -/

/-- C10: the irradiance column index used by the WHI adapter for a
sub-period is the sub-period's zero-based position in the period table:
the three datasets' `ssi` magnitudes are columns 0, 1 and 2 of the raw
table, the first dataset's `ssi` coincides with its own wavelength
coordinate (both are column 0), and the fourth table column is never
read — any two tables agreeing on columns 0, 1 and 2 produce identical
output. -/
theorem claim10_whi_column_selection (lines lines' : List RawLine)
    (h0 : column 0 (loadtxt 142 lines') = column 0 (loadtxt 142 lines))
    (h1 : column 1 (loadtxt 142 lines') = column 1 (loadtxt 142 lines))
    (h2 : column 2 (loadtxt 142 lines') = column 2 (loadtxt 142 lines)) :
    (Whi.format_raw_data lines).map (fun d => d.ssi) =
        [[column 0 (loadtxt 142 lines)], [column 1 (loadtxt 142 lines)],
         [column 2 (loadtxt 142 lines)]] ∧
      ((Whi.format_raw_data lines).getD 0
            (to_dataset1 ⟨[], ""⟩ ⟨[], ""⟩ "" [])).ssi =
        [((Whi.format_raw_data lines).getD 0
            (to_dataset1 ⟨[], ""⟩ ⟨[], ""⟩ "" [])).w] ∧
      Whi.format_raw_data lines' = Whi.format_raw_data lines := by
  refine ⟨rfl, rfl, ?_⟩
  rw [whi_format_eq lines, whi_format_eq lines', h0, h1, h2]

/-- Witness for C10: two concrete tables differing only in their fourth
column satisfy the hypotheses, and the adapter maps them to the same
output. -/
theorem claim10_witness :
    (column 0 (loadtxt 142
        (List.replicate 142 RawLine.comment ++ [RawLine.record [1, 2, 3, 5]])) =
      column 0 (loadtxt 142
        (List.replicate 142 RawLine.comment ++ [RawLine.record [1, 2, 3, 4]]))) ∧
    (column 1 (loadtxt 142
        (List.replicate 142 RawLine.comment ++ [RawLine.record [1, 2, 3, 5]])) =
      column 1 (loadtxt 142
        (List.replicate 142 RawLine.comment ++ [RawLine.record [1, 2, 3, 4]]))) ∧
    (column 2 (loadtxt 142
        (List.replicate 142 RawLine.comment ++ [RawLine.record [1, 2, 3, 5]])) =
      column 2 (loadtxt 142
        (List.replicate 142 RawLine.comment ++ [RawLine.record [1, 2, 3, 4]]))) ∧
    Whi.format_raw_data
        (List.replicate 142 RawLine.comment ++ [RawLine.record [1, 2, 3, 5]]) =
      Whi.format_raw_data
        (List.replicate 142 RawLine.comment ++ [RawLine.record [1, 2, 3, 4]]) :=
  ⟨by decide, by decide, by decide,
   (claim10_whi_column_selection
      (List.replicate 142 RawLine.comment ++ [RawLine.record [1, 2, 3, 4]])
      (List.replicate 142 RawLine.comment ++ [RawLine.record [1, 2, 3, 5]])
      (by decide) (by decide) (by decide)).2.2⟩

/-! ## Claim C6: Meftah missing values and wavelength clipping -/

theorem getD_map_cellVal (r : List Cell) (i : Nat) :
    (r.map cellVal).getD i (Val.num 0) = cellVal (r.getD i (Cell.number 0)) := by
  rw [List.getD_eq_getElem?_getD, List.getD_eq_getElem?_getD, List.getElem?_map]
  cases r[i]? <;> rfl

/-- The wavelength and irradiance columns read by the Meftah adapter,
as maps over the raw rows. -/
theorem meftah_columns (table : List (List Cell)) (i : Nat) :
    ((table.map fun row => row.map cellVal).map fun row =>
        row.getD i (Val.num 0)) =
      table.map fun row => cellVal (row.getD i (Cell.number 0)) := by
  rw [List.map_map]
  exact List.map_congr_left fun r _ => getD_map_cellVal r i

/-- C6: for every raw table, the Meftah adapter's format function keeps
exactly the rows whose wavelength is at least 165 nm (a NaN wavelength
comparing false), in order; the output irradiance of a kept row whose
irradiance cell carried the `---` sentinel is NaN rather than a parse
failure; and every wavelength in the output satisfies the bound. -/
theorem claim6_meftah_missing_and_clipping (table : List (List Cell)) :
    (Meftah.format table).w =
        (table.filter fun r =>
            vge (cellVal (r.getD 0 (Cell.number 0))) 165).map
          (fun r => cellVal (r.getD 0 (Cell.number 0))) ∧
      (Meftah.format table).ssi =
        [(table.filter fun r =>
            vge (cellVal (r.getD 0 (Cell.number 0))) 165).map
          (fun r => cellVal (r.getD 1 (Cell.number 0)))] ∧
      (∀ v ∈ (Meftah.format table).w, vge v 165 = true) ∧
      (∀ r ∈ table, vge (cellVal (r.getD 0 (Cell.number 0))) 165 = true →
        r.getD 1 (Cell.number 0) = Cell.missing →
        Val.nan ∈ (Meftah.format table).ssi.getD 0 []) := by
  have hzip1 :
      (Meftah.format table).w =
        ((((table.map fun row => row.map cellVal).map fun row =>
            row.getD 0 (Val.num 0)).zip
          ((table.map fun row => row.map cellVal).map fun row =>
            row.getD 1 (Val.num 0))).filter
          (fun p => vge p.1 165)).map Prod.fst := rfl
  have hzip2 :
      (Meftah.format table).ssi =
        [((((table.map fun row => row.map cellVal).map fun row =>
            row.getD 0 (Val.num 0)).zip
          ((table.map fun row => row.map cellVal).map fun row =>
            row.getD 1 (Val.num 0))).filter
          (fun p => vge p.1 165)).map Prod.snd] := rfl
  rw [meftah_columns table 0, meftah_columns table 1, List.zip_map'] at hzip1 hzip2
  have hzip : (Meftah.format table).w =
        ((table.map fun r =>
            (cellVal (r.getD 0 (Cell.number 0)),
             cellVal (r.getD 1 (Cell.number 0)))).filter
          (fun p => vge p.1 165)).map Prod.fst ∧
      (Meftah.format table).ssi =
        [((table.map fun r =>
            (cellVal (r.getD 0 (Cell.number 0)),
             cellVal (r.getD 1 (Cell.number 0)))).filter
          (fun p => vge p.1 165)).map Prod.snd] := ⟨hzip1, hzip2⟩
  have hfil :
      ((table.map fun r =>
          (cellVal (r.getD 0 (Cell.number 0)),
           cellVal (r.getD 1 (Cell.number 0)))).filter
        (fun p => vge p.1 165)) =
      (table.filter fun r =>
          vge (cellVal (r.getD 0 (Cell.number 0))) 165).map
        (fun r =>
          (cellVal (r.getD 0 (Cell.number 0)),
           cellVal (r.getD 1 (Cell.number 0)))) := by
    rw [List.filter_map]
    rfl
  have hw : (Meftah.format table).w =
      (table.filter fun r =>
          vge (cellVal (r.getD 0 (Cell.number 0))) 165).map
        (fun r => cellVal (r.getD 0 (Cell.number 0))) := by
    rw [hzip.1, hfil, List.map_map]
    rfl
  have hssi : (Meftah.format table).ssi =
      [(table.filter fun r =>
          vge (cellVal (r.getD 0 (Cell.number 0))) 165).map
        (fun r => cellVal (r.getD 1 (Cell.number 0)))] := by
    rw [hzip.2, hfil, List.map_map]
    rfl
  refine ⟨hw, hssi, ?_, ?_⟩
  · intro v hv
    rw [hw] at hv
    obtain ⟨r, hr, rfl⟩ := List.mem_map.mp hv
    exact (List.mem_filter.mp hr).2
  · intro r hr hkeep hmiss
    rw [hssi]
    refine List.mem_map.mpr ⟨r, List.mem_filter.mpr ⟨hr, hkeep⟩, ?_⟩
    rw [hmiss]
    rfl

/-- Witness for C6: a concrete table with one sentinel row and one
sub-165 row; the sentinel row survives as NaN and the bound hypothesis
holds on a kept row. -/
theorem claim6_witness :
    ([Cell.number 200, Cell.missing] ∈
        ([[Cell.number 100, Cell.number 5], [Cell.number 200, Cell.missing],
          [Cell.number 300, Cell.number 7]] : List (List Cell)) ∧
      vge (cellVal (([Cell.number 200, Cell.missing] : List Cell).getD 0
          (Cell.number 0))) 165 = true) ∧
      Val.nan ∈ (Meftah.format
          [[Cell.number 100, Cell.number 5], [Cell.number 200, Cell.missing],
           [Cell.number 300, Cell.number 7]]).ssi.getD 0 [] :=
  ⟨⟨by decide, by decide⟩,
   (claim6_meftah_missing_and_clipping
      [[Cell.number 100, Cell.number 5], [Cell.number 200, Cell.missing],
       [Cell.number 300, Cell.number 7]]).2.2.2
     [Cell.number 200, Cell.missing] (by decide) (by decide) (by decide)⟩

/-! ## Claim C5: the SOLID multi-file merge -/

/-- C5: for rectangular per-range files, the SOLID adapter's format
function merges the files along the wavelength axis, repairs the
embedded unit string, infers a daily time axis whose last entry is the
fixed end date 2014-12-30 and whose first entry is `record_count - 1`
days earlier, and hands the merged `ssi` over in `(t, w)` order:
`record_count` rows, one wavelength entry per column. -/
theorem claim5_solid_merge (files : List Solid.NcFile)
    (_hrect : ∀ f ∈ files, ∀ row ∈ f.data,
      row.length = (Solid.merge files).time.length)
    (hw : ∀ f ∈ files, f.data.length = f.wavelength.length) :
    (Solid.format files).w = (files.map fun f => f.wavelength).flatten ∧
      (Solid.format files).ssi_units = repairUnits (Solid.merge files).units ∧
      (Solid.format files).t =
        (List.range (Solid.merge files).time.length).map
          (fun (k : Nat) =>
            Solid.endDay - (((Solid.merge files).time.length : Int) - 1) +
              (k : Int)) ∧
      (1 ≤ (Solid.merge files).time.length →
        Solid.endDay ∈ (Solid.format files).t ∧
        Solid.endDay - (((Solid.merge files).time.length : Int) - 1) ∈
          (Solid.format files).t ∧
        ∀ x ∈ (Solid.format files).t,
          Solid.endDay - (((Solid.merge files).time.length : Int) - 1) ≤ x ∧
            x ≤ Solid.endDay) ∧
      (Solid.format files).ssi.length = (Solid.merge files).time.length ∧
      ∀ row ∈ (Solid.format files).ssi,
        row.length = (Solid.format files).w.length := by
  have hlen : ∀ n : Nat,
      (dateRangeDays (Solid.endDay - ((n : Int) - 1)) Solid.endDay).length = n := by
    intro n
    simp only [dateRangeDays, List.length_map, List.length_range]
    omega
  have hssi : (Solid.format files).ssi =
      transposeMat (Solid.merge files).time.length 0 (Solid.merge files).data := by
    have h0 : (Solid.format files).ssi =
        (if (transposeMat (Solid.merge files).time.length 0
              (Solid.merge files).data).length =
            (dateRangeDays
              (Solid.endDay - (((Solid.merge files).time.length : Int) - 1))
              Solid.endDay).length then
          transposeMat (Solid.merge files).time.length 0 (Solid.merge files).data
        else
          transposeMat
            (dateRangeDays
              (Solid.endDay - (((Solid.merge files).time.length : Int) - 1))
              Solid.endDay).length default
            (transposeMat (Solid.merge files).time.length 0
              (Solid.merge files).data)) := rfl
    rw [h0, if_pos]
    rw [hlen]
    simp [transposeMat]
  have ht : (Solid.format files).t =
      (List.range (Solid.merge files).time.length).map
        (fun (k : Nat) =>
          Solid.endDay - (((Solid.merge files).time.length : Int) - 1) +
            (k : Int)) := by
    have h0 : (Solid.format files).t =
        dateRangeDays
          (Solid.endDay - (((Solid.merge files).time.length : Int) - 1))
          Solid.endDay := rfl
    rw [h0]
    simp only [dateRangeDays]
    rw [show (Solid.endDay -
        (Solid.endDay - (((Solid.merge files).time.length : Int) - 1)) +
        1).toNat = (Solid.merge files).time.length from by omega]
  refine ⟨rfl, rfl, ht, ?_, ?_, ?_⟩
  · intro hn
    refine ⟨?_, ?_, ?_⟩
    · rw [ht]
      refine List.mem_map.mpr ⟨(Solid.merge files).time.length - 1,
        List.mem_range.mpr (by omega), ?_⟩
      omega
    · rw [ht]
      exact List.mem_map.mpr ⟨0, List.mem_range.mpr (by omega), by omega⟩
    · intro x hx
      rw [ht] at hx
      obtain ⟨k, hk, rfl⟩ := List.mem_map.mp hx
      have := List.mem_range.mp hk
      omega
  · rw [hssi]
    simp [transposeMat]
  · intro row hrow
    rw [hssi] at hrow
    simp only [transposeMat, List.mem_map] at hrow
    obtain ⟨j, _, rfl⟩ := hrow
    have hwlen : (Solid.format files).w.length =
        ((files.map fun f => f.wavelength).flatten).length := rfl
    have hdata : (Solid.merge files).data =
        (files.map fun f => f.data).flatten := rfl
    rw [List.length_map, hwlen, hdata, List.length_flatten,
      List.length_flatten, List.map_map, List.map_map]
    exact congrArg List.sum (List.map_congr_left fun f hf => by
      simp only [Function.comp_apply]
      exact hw f hf)

/-- Witness for C5: two concrete rectangular one-wavelength files with
a two-entry shared time axis satisfy the hypotheses, and the theorem's
merge conclusion applies to them. -/
theorem claim5_witness :
    (∀ f ∈ ([⟨[1], [10, 20], [[5, 6]], "W m-2 nm-1", "nm"⟩,
        ⟨[2], [10, 20], [[7, 8]], "W m-2 nm-1", "nm"⟩] : List Solid.NcFile),
        ∀ row ∈ f.data,
          row.length = (Solid.merge
            [⟨[1], [10, 20], [[5, 6]], "W m-2 nm-1", "nm"⟩,
             ⟨[2], [10, 20], [[7, 8]], "W m-2 nm-1", "nm"⟩]).time.length) ∧
      (∀ f ∈ ([⟨[1], [10, 20], [[5, 6]], "W m-2 nm-1", "nm"⟩,
          ⟨[2], [10, 20], [[7, 8]], "W m-2 nm-1", "nm"⟩] : List Solid.NcFile),
          f.data.length = f.wavelength.length) ∧
      (Solid.format [⟨[1], [10, 20], [[5, 6]], "W m-2 nm-1", "nm"⟩,
          ⟨[2], [10, 20], [[7, 8]], "W m-2 nm-1", "nm"⟩]).w =
        (([⟨[1], [10, 20], [[5, 6]], "W m-2 nm-1", "nm"⟩,
           ⟨[2], [10, 20], [[7, 8]], "W m-2 nm-1", "nm"⟩] :
            List Solid.NcFile).map fun f => f.wavelength).flatten :=
  ⟨by decide, by decide,
   (claim5_solid_merge
      [⟨[1], [10, 20], [[5, 6]], "W m-2 nm-1", "nm"⟩,
       ⟨[2], [10, 20], [[7, 8]], "W m-2 nm-1", "nm"⟩]
      (by decide) (by decide)).1⟩

/-! ## Claim C7: output file naming of multi-output adapters -/

theorem underscore_no_space :
    ∀ l : List Char, (underscoreSpaces l).contains ' ' = false
  | [] => rfl
  | c :: rest => by
    have ih := underscore_no_space rest
    simp only [underscoreSpaces, List.map_cons, List.contains_cons] at ih ⊢
    by_cases hc : c = ' '
    · subst hc
      simpa using ih
    · rw [if_neg hc, ih, beq_eq_false_iff_ne.mpr fun he => hc he.symm]
      rfl

/-- C7 counterexample: the FSE adapter yields multiple outputs, but
when a destination path is given it names them
`coddington_2022-fse_binned.nc` and `coddington_2022-fse.nc` — an
underscore-joined variant and a bare identifier — not
`identifier-label.nc` for its sub-range labels. -/
theorem claim7_fse_naming_differs :
    Fse.output_filenames =
        ["coddington_2022-fse_binned.nc", "coddington_2022-fse.nc"] ∧
      Fse.output_filename "binned_fs_" ≠
        Fse.IDENTIFIER ++ "-" ++
          String.mk (underscoreSpaces "binned_fs_".data) ++ ".nc" ∧
      Fse.output_filename "fs_" ≠
        Fse.IDENTIFIER ++ "-" ++
          String.mk (underscoreSpaces "fs_".data) ++ ".nc" := by
  refine ⟨by decide, by decide, by decide⟩

/-- C7 (amended): the WHI adapter names each of its multiple outputs
`identifier-label.nc` with every space of the sub-period label replaced
by an underscore; the FSE adapter, which also yields multiple outputs,
instead names them `identifier_binned.nc` (binned variant) and
`identifier.nc` (full-resolution variant). -/
theorem claim7_output_naming :
    Whi.output_filenames =
        ["whi_2008-sunspot_active.nc", "whi_2008-faculae_active.nc",
         "whi_2008-quiet_sun.nc"] ∧
      (∀ label : String,
        (Whi.output_filename label).data =
          "whi_2008-".data ++ underscoreSpaces label.data ++ ".nc".data) ∧
      (∀ label : String, (underscoreSpaces label.data).contains ' ' = false) ∧
      Fse.output_filenames =
        ["coddington_2022-fse_binned.nc", "coddington_2022-fse.nc"] := by
  refine ⟨by decide, ?_, fun label => underscore_no_space _, by decide⟩
  intro label
  show (Whi.IDENTIFIER ++ "-" ++ String.mk (underscoreSpaces label.data) ++ ".nc").data = _
  rw [String.data_append, String.data_append, String.data_append]
  rfl

/-! ## Claims C8 and C9: the download functions -/

theorem mem_writeFile_self (fs : FS) (p : String) (b : List Nat) :
    (p, b) ∈ (writeFile fs p b).files := by
  simp [writeFile]

theorem mem_writeFile_other {fs : FS} {p' : String} {b' : List Nat}
    (h : (p', b') ∈ fs.files) (p : String) (b : List Nat) (hne : p' ≠ p) :
    (p', b') ∈ (writeFile fs p b).files := by
  simp only [writeFile, List.mem_cons]
  exact Or.inr (List.mem_filter.mpr ⟨h, by simp [bne_iff_ne, hne]⟩)

theorem mem_mkdirP_self (fs : FS) (p : String) : p ∈ (mkdirP fs p).dirs := by
  simp only [mkdirP]
  by_cases h : p ∈ fs.dirs
  · rw [if_pos h]
    exact h
  · rw [if_neg h]
    exact List.mem_cons_self p fs.dirs

theorem path_append_ne (path : String) {f1 f2 : String}
    (h : f1.length ≠ f2.length) : path ++ "/" ++ f1 ≠ path ++ "/" ++ f2 := by
  intro he
  have hl := congrArg String.length he
  rw [String.length_append, String.length_append, String.length_append,
    String.length_append] at hl
  omega

/-- C8 counterexample: the FSE adapter's download, given a destination
directory that does not exist, does not create it: it fails with a
`ValueError` and writes nothing. -/
theorem claim8_fse_no_mkdir :
    Fse.download (fun _ => ⟨200, [1]⟩) "raw" ⟨[], []⟩ =
      Except.error "Path raw must be a directory." := by
  rfl

/-- C8 (amended): the WHI download (the SOLID, Thuillier and Meftah
downloads have the same shape) writes the response body into the
destination directory and creates the directory if absent; the FSE
download instead writes its two files only when the destination is
already an existing directory, and fails with a `ValueError` when it is
not, creating nothing. -/
theorem claim8_download_destinations :
    (∀ (resp : Response) (path : String) (fs : FS),
      path ∈ (Whi.download_raw_data resp path fs).dirs ∧
        (path ++ "/" ++ Whi.FILE, resp.content) ∈
          (Whi.download_raw_data resp path fs).files) ∧
      (∀ (resp : String → Response) (path : String) (fs : FS),
        path ∈ fs.dirs →
          Fse.download resp path fs =
            Except.ok (writeFile
              (writeFile fs (path ++ "/" ++ ("binned_fs_" ++ Fse.FILENAME_SUFFIX))
                (resp ("binned_fs_" ++ Fse.FILENAME_SUFFIX)).content)
              (path ++ "/" ++ ("fs_" ++ Fse.FILENAME_SUFFIX))
              (resp ("fs_" ++ Fse.FILENAME_SUFFIX)).content)) ∧
      (∀ (resp : String → Response) (path : String) (fs : FS),
        path ∉ fs.dirs →
          Fse.download resp path fs =
            Except.error ("Path " ++ path ++ " must be a directory.")) := by
  refine ⟨?_, ?_, ?_⟩
  · intro resp path fs
    constructor
    · exact mem_mkdirP_self fs path
    · exact List.mem_cons_self _ _
  · intro resp path fs h
    unfold Fse.download
    rw [if_pos h]
    rfl
  · intro resp path fs h
    unfold Fse.download
    rw [if_neg h]

/-- Witness for C8: the directory hypotheses of the two FSE conjuncts
are satisfiable, and the theorem applies there. -/
theorem claim8_witness :
    ("d" ∈ (FS.mk ["d"] []).dirs ∧
      Fse.download (fun _ => ⟨200, [1]⟩) "d" (FS.mk ["d"] []) =
        Except.ok (writeFile
          (writeFile (FS.mk ["d"] [])
            ("d" ++ "/" ++ ("binned_fs_" ++ Fse.FILENAME_SUFFIX))
            ((fun _ => (⟨200, [1]⟩ : Response)) ("binned_fs_" ++ Fse.FILENAME_SUFFIX)).content)
          ("d" ++ "/" ++ ("fs_" ++ Fse.FILENAME_SUFFIX))
          ((fun _ => (⟨200, [1]⟩ : Response)) ("fs_" ++ Fse.FILENAME_SUFFIX)).content)) ∧
      ("e" ∉ (FS.mk ["d"] []).dirs ∧
        Fse.download (fun _ => ⟨200, [1]⟩) "e" (FS.mk ["d"] []) =
          Except.error ("Path " ++ "e" ++ " must be a directory.")) :=
  ⟨⟨by decide,
    claim8_download_destinations.2.1 (fun _ => ⟨200, [1]⟩) "d" (FS.mk ["d"] [])
      (by decide)⟩,
   by decide,
   claim8_download_destinations.2.2 (fun _ => ⟨200, [1]⟩) "e" (FS.mk ["d"] [])
     (by decide)⟩

/-- C9 counterexample: a non-success transport response does not fail
with a `DownloadError`; its body is written out as if it were data. The
WHI download applied to a 404 response with body `[1, 2, 3]` succeeds
and stores that body under the destination file name. -/
theorem claim9_status_ignored :
    Whi.download_raw_data ⟨404, [1, 2, 3]⟩ "raw" ⟨[], []⟩ =
      ⟨["raw"], [("raw/ref_solar_irradiance_whi-2008_ver2.dat", [1, 2, 3])]⟩ := by
  decide

/-- C9 (amended): no adapter download inspects the transport status and
none raises a `DownloadError`: for every status code the response body
is written to the destination file — the WHI download always, the FSE
download whenever the destination directory exists. -/
theorem claim9_download_ignores_status :
    (∀ (status : Nat) (body : List Nat) (path : String) (fs : FS),
      (path ++ "/" ++ Whi.FILE, body) ∈
        (Whi.download_raw_data ⟨status, body⟩ path fs).files) ∧
      ∀ (status : Nat) (body : List Nat) (path : String) (fs : FS),
        path ∈ fs.dirs →
          ∃ fs', Fse.download (fun _ => ⟨status, body⟩) path fs = Except.ok fs' ∧
            (path ++ "/" ++ ("binned_fs_" ++ Fse.FILENAME_SUFFIX), body) ∈ fs'.files ∧
            (path ++ "/" ++ ("fs_" ++ Fse.FILENAME_SUFFIX), body) ∈ fs'.files := by
  constructor
  · intro status body path fs
    exact List.mem_cons_self _ _
  · intro status body path fs h
    unfold Fse.download
    rw [if_pos h]
    refine ⟨_, rfl, ?_, ?_⟩
    · show (_, body) ∈ (writeFile
        (writeFile fs (path ++ "/" ++ ("binned_fs_" ++ Fse.FILENAME_SUFFIX)) body)
        (path ++ "/" ++ ("fs_" ++ Fse.FILENAME_SUFFIX)) body).files
      exact mem_writeFile_other (mem_writeFile_self _ _ _) _ _
        (path_append_ne path (by decide))
    · show (_, body) ∈ (writeFile
        (writeFile fs (path ++ "/" ++ ("binned_fs_" ++ Fse.FILENAME_SUFFIX)) body)
        (path ++ "/" ++ ("fs_" ++ Fse.FILENAME_SUFFIX)) body).files
      exact mem_writeFile_self _ _ _

/-- Witness for C9: the directory hypothesis of the FSE conjunct is
satisfiable and the theorem applies there. -/
theorem claim9_witness :
    ("d" ∈ (FS.mk ["d"] []).dirs ∧
      ∃ fs', Fse.download (fun _ => ⟨404, [7]⟩) "d" (FS.mk ["d"] []) =
          Except.ok fs' ∧
        ("d" ++ "/" ++ ("binned_fs_" ++ Fse.FILENAME_SUFFIX), [7]) ∈ fs'.files ∧
        ("d" ++ "/" ++ ("fs_" ++ Fse.FILENAME_SUFFIX), [7]) ∈ fs'.files) :=
  ⟨by decide,
   claim9_download_ignores_status.2 404 [7] "d" (FS.mk ["d"] []) (by decide)⟩

end Tengen
